import Mathlib

/-!
Verification of the "Future Cities Playground" configurator core
(`src/app.js`): the seeded linear-congruential generator, the scoring
function, the configuration state and its mutation paths, the scene-cache
key logic, and the draw-accounting of the static scene renderer versus the
animated overlay's replay pass.

Conventions of the shallow embedding:
* JavaScript `number` arithmetic is modelled over `ℚ` (the concrete values
  exercised below were checked to be exact in binary64 as well);
  `Math.floor` is `Int.floor`, `Math.round` is `Int.floor (q + 1/2)`
  (JS rounds halves toward positive infinity).
* The mutable `configState` object is the structure `ConfigState`; a
  numeric field holds `Option ℤ`, where `none` models `NaN` (the result of
  a failed `parseInt`).
* Fresh canvas allocation (`document.createElement('canvas')`) is modelled
  by an allocation counter, so "distinct raster" means distinct identity.
-/

/-! ## Seeded generator (src/app.js lines 405-411) -/

/-- One advance of the LCG state: `s = (s * 16807 + 0) % 2147483647`. -/
def rngStep (s : ℕ) : ℕ := (s * 16807 + 0) % 2147483647

/-- The internal state of the generator after `n` calls to `next()`,
starting from `seed`. -/
def rngState (seed : ℕ) : ℕ → ℕ
  | 0 => seed
  | n + 1 => rngStep (rngState seed n)

/-- The value returned by the `n`-th call (0-indexed) of the closure
produced by `createSeededRNG(seed)`: it first advances the state and then
returns `(s - 1) / 2147483646`. -/
def createSeededRNG (seed : ℕ) (n : ℕ) : ℚ :=
  ((rngState seed (n + 1) : ℚ) - 1) / 2147483646

/-! ## Configuration state (src/app.js lines 280-287) -/

/-- The mutable `configState` record.  Numeric fields are `Option ℤ`:
`some n` is an ordinary integer value, `none` models `NaN`. -/
structure ConfigState where
  environment : String
  population : Option ℤ
  energy : String
  greenery : Option ℤ
  transport : String
  tech : Option ℤ
deriving DecidableEq

/-- The five enumerated environment values (keys of `themes` / `envBonus`). -/
def environments : List String := ["urban", "coastal", "mountain", "desert", "arctic"]

/-- The four enumerated energy values (keys of `energyBonus`). -/
def energies : List String := ["solar", "fusion", "wind", "tidal"]

/-- The three enumerated transport values (keys of `transportBonus`). -/
def transports : List String := ["aerial", "hyperloop", "teleport"]

/-- A numeric configuration field is well-formed when it holds an actual
integer in `[0, 100]`. -/
def intOK (o : Option ℤ) : Prop := ∃ n, o = some n ∧ 0 ≤ n ∧ n ≤ 100

instance : DecidablePred intOK := by
  intro o
  cases o with
  | none =>
      exact isFalse (by rintro ⟨n, hn, -⟩; exact Option.noConfusion hn)
  | some k =>
      exact decidable_of_iff (0 ≤ k ∧ k ≤ 100)
        ⟨fun h => ⟨k, rfl, h⟩, by rintro ⟨n, hn, h⟩; cases hn; exact h⟩

/-- The Configuration invariant of the spec (§3): numeric fields are
integers in `[0,100]`, categorical fields are enumerated values. -/
def validConfig (c : ConfigState) : Prop :=
  c.environment ∈ environments ∧ intOK c.population ∧ c.energy ∈ energies ∧
    intOK c.greenery ∧ c.transport ∈ transports ∧ intOK c.tech

instance (c : ConfigState) : Decidable (validConfig c) := by
  unfold validConfig; infer_instance

/-- The startup defaults (src/app.js lines 280-287). -/
def initialConfig : ConfigState :=
  { environment := "urban", population := some 60, energy := "solar",
    greenery := some 45, transport := "aerial", tech := some 75 }

/-! ## UI mutation handlers (src/app.js lines 290-341) -/

/-- Decimal digit value of a character, if any. -/
def digitVal (ch : Char) : Option ℕ :=
  if '0' ≤ ch ∧ ch ≤ '9' then some (ch.toNat - '0'.toNat) else none

/-- Accumulate the leading decimal digits of a character list. -/
def parseDigitsAux : List Char → ℕ → ℕ
  | [], acc => acc
  | ch :: rest, acc =>
      match digitVal ch with
      | some d => parseDigitsAux rest (acc * 10 + d)
      | none => acc

/-- Leading-digit run of a character list; `none` when it is empty. -/
def parseDigits : List Char → Option ℕ
  | [] => none
  | ch :: rest =>
      match digitVal ch with
      | some d => some (parseDigitsAux rest d)
      | none => none

/-- JavaScript `parseInt(s)` restricted to the shapes that occur here: an
optional minus sign followed by leading decimal digits; `none` models the
`NaN` result.  (Leading whitespace, `+`, and radix prefixes are not
modelled; no caller in the program produces them.) -/
def jsParseInt (s : String) : Option ℤ :=
  match s.data with
  | '-' :: rest => (parseDigits rest).map (fun n => -(n : ℤ))
  | l => (parseDigits l).map (fun n => (n : ℤ))

/-- Energy toggle-button click handler (lines 300-301). -/
def setEnergyToggle (c : ConfigState) (v : String) : ConfigState :=
  { c with energy := v }

/-- Transport toggle-button click handler (lines 302-303). -/
def setTransportToggle (c : ConfigState) (v : String) : ConfigState :=
  { c with transport := v }

/-- Environment select change handler (lines 338-340). -/
def setEnvironmentSelect (c : ConfigState) (v : String) : ConfigState :=
  { c with environment := v }

/-- Population slider input handler: `configState.population = parseInt(popSlider.value)`
(lines 318-319). -/
def popSliderInput (c : ConfigState) (v : String) : ConfigState :=
  { c with population := jsParseInt v }

/-- Greenery slider input handler (lines 324-325). -/
def greenSliderInput (c : ConfigState) (v : String) : ConfigState :=
  { c with greenery := jsParseInt v }

/-- Tech slider input handler (lines 330-331). -/
def techSliderInput (c : ConfigState) (v : String) : ConfigState :=
  { c with tech := jsParseInt v }

/-! ## Shareable-link parsing (src/app.js lines 870-908) -/

/-- The URL query parameters read by `loadFromURL`; `none` means the key is
absent (`params.has(k)` false).  The `name` parameter only fills the city
name input, not `configState`, and is omitted. -/
structure URLParams where
  env : Option String
  pop : Option String
  nrg : Option String
  grn : Option String
  trn : Option String
  tch : Option String

/-- The startup `loadFromURL` IIFE: each present parameter is assigned to
`configState` verbatim (categoricals) or through `parseInt` (numerics),
with no validation or clamping.  DOM mirroring of the controls is omitted. -/
def loadFromURL (p : URLParams) (c0 : ConfigState) : ConfigState :=
  let c1 := match p.env with
    | some v => { c0 with environment := v }
    | none => c0
  let c2 := match p.pop with
    | some v => { c1 with population := jsParseInt v }
    | none => c1
  let c3 := match p.nrg with
    | some v => { c2 with energy := v }
    | none => c2
  let c4 := match p.grn with
    | some v => { c3 with greenery := jsParseInt v }
    | none => c3
  let c5 := match p.trn with
    | some v => { c4 with transport := v }
    | none => c4
  match p.tch with
    | some v => { c5 with tech := jsParseInt v }
    | none => c5

/-! ## Scoring (src/app.js lines 344-370) -/

/-- JavaScript `Math.round`: round half toward positive infinity. -/
def jsRound (q : ℚ) : ℤ := Int.floor (q + 1 / 2)

/-- The `energyBonus` table with the `|| 10` fallback (no table value is
falsy, so `||` behaves as a missing-key default). -/
def energyBonus (e : String) : ℚ :=
  if e = "solar" then 20
  else if e = "fusion" then 15
  else if e = "wind" then 18
  else if e = "tidal" then 22
  else 10

/-- The `transportBonus` table with the `|| 10` fallback. -/
def transportBonus (t : String) : ℚ :=
  if t = "aerial" then 10
  else if t = "hyperloop" then 15
  else if t = "teleport" then 8
  else 10

/-- The `envBonus` table with the `|| 5` fallback. -/
def envBonus (e : String) : ℚ :=
  if e = "urban" then 5
  else if e = "coastal" then 12
  else if e = "mountain" then 10
  else if e = "desert" then 3
  else if e = "arctic" then 7
  else 5

/-- The derived score snapshot. -/
structure Scores where
  sustainability : ℤ
  innovation : ℤ
  quality : ℤ
  resilience : ℤ
  livability : ℤ
deriving DecidableEq

/-- The arithmetic core of `computeScores`, on integer field values. -/
def computeScoresCore (environment energy transport : String)
    (population greenery tech : ℤ) : Scores :=
  let sustainability := min 100 (jsRound
    ((greenery : ℚ) * (6 / 10) + energyBonus energy
      + ((100 : ℚ) - (population : ℚ)) * (15 / 100) + envBonus environment))
  let innovation := min 100 (jsRound
    ((tech : ℚ) * (7 / 10) + transportBonus transport
      + energyBonus energy * (3 / 10)))
  let quality := min 100 (jsRound
    ((greenery : ℚ) * (3 / 10) + ((100 : ℚ) - (population : ℚ)) * (25 / 100)
      + (tech : ℚ) * (2 / 10) + envBonus environment * (3 / 2)))
  let resilience := min 100 (jsRound
    (((100 : ℚ) - (population : ℚ)) * (2 / 10) + (greenery : ℚ) * (2 / 10)
      + (tech : ℚ) * (3 / 10) + energyBonus energy + 10))
  let livability := jsRound
    (((sustainability : ℚ) + (innovation : ℚ) + (quality : ℚ) + (resilience : ℚ)) / 4)
  ⟨sustainability, innovation, quality, resilience, livability⟩

/-- `computeScores()` reading `configState`.  A `NaN` numeric field
(`none`) would propagate `NaN` through every score; that is modelled as
`none`. -/
def computeScores (c : ConfigState) : Option Scores :=
  match c.population, c.greenery, c.tech with
  | some p, some g, some t =>
      some (computeScoresCore c.environment c.energy c.transport p g t)
  | _, _, _ => none

/-- Scores as the spec's §4.2 formulas read, with the environment bonus an
explicit parameter; used to check the missing-key fallback of claim C9
against the source definition. -/
def specScoresWithEnvBonus (envB : ℚ) (energy transport : String)
    (population greenery tech : ℤ) : Scores :=
  let sustainability := min 100 (jsRound
    ((greenery : ℚ) * (6 / 10) + energyBonus energy
      + ((100 : ℚ) - (population : ℚ)) * (15 / 100) + envB))
  let innovation := min 100 (jsRound
    ((tech : ℚ) * (7 / 10) + transportBonus transport
      + energyBonus energy * (3 / 10)))
  let quality := min 100 (jsRound
    ((greenery : ℚ) * (3 / 10) + ((100 : ℚ) - (population : ℚ)) * (25 / 100)
      + (tech : ℚ) * (2 / 10) + envB * (3 / 2)))
  let resilience := min 100 (jsRound
    (((100 : ℚ) - (population : ℚ)) * (2 / 10) + (greenery : ℚ) * (2 / 10)
      + (tech : ℚ) * (3 / 10) + energyBonus energy + 10))
  let livability := jsRound
    (((sustainability : ℚ) + (innovation : ℚ) + (quality : ℚ) + (resilience : ℚ)) / 4)
  ⟨sustainability, innovation, quality, resilience, livability⟩

/-! ## Cache key (src/app.js lines 414-428) -/

/-- Decimal string of a natural number, as JavaScript string coercion
prints it (most significant digit first, `"0"` for zero). -/
def natDecStr (n : ℕ) : String :=
  if n = 0 then "0" else ⟨(Nat.digits 10 n).reverse.map Nat.digitChar⟩

/-- Decimal string of an integer, as JavaScript prints it. -/
def jsIntStr (n : ℤ) : String :=
  if n < 0 then "-" ++ natDecStr n.natAbs else natDecStr n.natAbs

/-- String coercion of a numeric configuration field; `NaN` prints as
`"NaN"`. -/
def jsNumStr : Option ℤ → String
  | none => "NaN"
  | some n => jsIntStr n

/-- `Array.prototype.join('|')` on character lists. -/
def joinPipe : List (List Char) → List Char
  | [] => []
  | [a] => a
  | a :: b :: rest => a ++ '|' :: joinPipe (b :: rest)

/-- `getConfigKey()`: the pipe-joined canonical string of the six
configuration fields plus the canvas offset width and height. -/
def getConfigKey (c : ConfigState) (ow oh : ℕ) : String :=
  ⟨joinPipe [c.environment.data, (jsNumStr c.population).data, c.energy.data,
    (jsNumStr c.greenery).data, c.transport.data, (jsNumStr c.tech).data,
    (natDecStr ow).data, (natDecStr oh).data]⟩

/-! ## Scene cache state machine (src/app.js lines 414-415, 660-680) -/

/-- A raster produced by `renderStaticScene`: a fresh offscreen canvas.
`gen` is its allocation identity, `forKey` the cache key it was rendered
for. -/
structure Raster where
  gen : ℕ
  forKey : String
deriving DecidableEq

/-- The mutable state touched by `renderCityCanvas`: the configuration,
the canvas CSS size, the single-entry cache (`staticSceneCache`,
`lastConfigKey`), and the allocation counter modelling
`document.createElement('canvas')`.  Canvas pixel surfaces are not
modelled. -/
structure AppState where
  config : ConfigState
  offsetW : ℕ
  offsetH : ℕ
  lastConfigKey : String
  staticSceneCache : Option Raster
  alloc : ℕ
deriving DecidableEq

/-- One call of `renderCityCanvas()` (cache part, lines 670-680): if the
current key differs from `lastConfigKey`, render a fresh static raster and
replace the cache wholesale; then blit the cached raster.  Returns the new
state and the raster drawn (none only if the cache was empty on a hit). -/
def renderCityCanvasStep (s : AppState) : AppState × Option Raster :=
  let key := getConfigKey s.config s.offsetW s.offsetH
  if key = s.lastConfigKey then
    (s, s.staticSceneCache)
  else
    let r : Raster := ⟨s.alloc, key⟩
    ({ s with
        staticSceneCache := some r
        lastConfigKey := key
        alloc := s.alloc + 1 }, some r)

/-! ## Static scene layout (src/app.js lines 439-658) -/

/-- Draw `n` (0-indexed) of the main layout generator, seeded 42
(line 445). -/
def u42 (n : ℕ) : ℚ := createSeededRNG 42 n

/-- `Math.floor` of a nonnegative quantity used as a loop bound. -/
def qFloorN (q : ℚ) : ℕ := (Int.floor q).toNat

/-- `starCount = Math.floor(15 + tech * 0.2)` (line 455). -/
def starCountOf (tech : ℤ) : ℕ := qFloorN (15 + (tech : ℚ) * (2 / 10))

/-- `buildingCount = Math.floor(6 + population * 0.15)` (line 483). -/
def buildingCountOf (population : ℤ) : ℕ :=
  qFloorN (6 + (population : ℚ) * (15 / 100))

/-- `maxHeight = h * 0.12 + (population / 100) * h * 0.3` (line 484). -/
def maxHeightOf (population : ℤ) (h : ℚ) : ℚ :=
  h * (12 / 100) + ((population : ℚ) / 100) * h * (3 / 10)

/-- `groundY = h * 0.6` (line 468). -/
def groundYOf (h : ℚ) : ℚ := h * (6 / 10)

/-- A star: 4 draws for x, y, size, alpha (lines 456-465). -/
structure ScnStar where
  sx : ℚ
  sy : ℚ
  ss : ℚ
  alpha : ℚ
deriving DecidableEq

/-- The star field; star `i` consumes draws `4i .. 4i+3`, starting at
cursor 0 (the first generator call of the static pass). -/
def starList (count : ℕ) (w h scale : ℚ) : List ScnStar :=
  (List.range count).map fun i =>
    ⟨u42 (4 * i) * w,
     u42 (4 * i + 1) * h * (1 / 2),
     u42 (4 * i + 2) * (12 / 10) * scale + (3 / 10) * scale,
     u42 (4 * i + 3) * (1 / 2) + (15 / 100)⟩

/-- One window cell: position, the `chance` draw, and the second draw of
the cell (used as brightness when `chance > 0.45`, otherwise consumed
unused to keep the sequence aligned — lines 508-522). -/
structure Window where
  wxx : ℚ
  wyy : ℚ
  chance : ℚ
  second : ℚ
deriving DecidableEq

/-- The window grid of one building; cell `(wy, wx)` (row-major) consumes
draws `c + 2*(wy*cols + wx)` and the one after. -/
def windowGrid (bx byTop scale : ℚ) (rows cols : ℕ) (c : ℕ) : List Window :=
  (List.range rows).flatMap fun wy =>
    (List.range cols).map fun wx =>
      let c0 := c + 2 * (wy * cols + wx)
      ⟨bx + 3 * scale + (wx : ℚ) * 8 * scale,
       byTop + 3 * scale + (wy : ℚ) * 8 * scale,
       u42 c0, u42 (c0 + 1)⟩

/-- A building of the static pass (lines 486-539). -/
structure BldgS where
  bx : ℚ
  bw : ℚ
  bh : ℚ
  windows : List Window
deriving DecidableEq

/-- A building as re-derived by the animated overlay's replay pass
(lines 736-751). -/
structure BldgR where
  bx : ℚ
  bw : ℚ
  bh : ℚ
deriving DecidableEq

/-- The static building loop: building `i` consumes one draw for jitter,
one for width, one for height, then two draws per window cell.  Arguments:
fuel (buildings left), index, cursor; returns the buildings and the final
cursor. -/
def staticBldgList (w scale maxH groundY : ℚ) (bc : ℕ) :
    ℕ → ℕ → ℕ → List BldgS × ℕ
  | 0, _, c => ([], c)
  | fuel + 1, i, c =>
      let jitter := (u42 c - 1 / 2) * w * (4 / 100)
      let bx := ((i : ℚ) / (bc : ℚ)) * w + jitter
      let bw := (18 + u42 (c + 1) * 22) * scale
      let bh := (30 + u42 (c + 2) * (maxH / scale)) * scale
      let byTop := groundY - bh
      let rows := qFloorN (bh / (8 * scale))
      let cols := qFloorN (bw / (8 * scale))
      let ws := windowGrid bx byTop scale rows cols (c + 3)
      let rest := staticBldgList w scale maxH groundY bc fuel (i + 1)
        (c + 3 + 2 * (rows * cols))
      (⟨bx, bw, bh, ws⟩ :: rest.1, rest.2)

/-- The replay building loop of the animated overlay (lines 736-751):
building `i` consumes a skipped jitter draw, a width draw, an extra
skipped draw (`rng(); // consume bw rng`), a height draw, then two draws
per window cell; its x drops the jitter (`(i / buildingCount) * w + 0`). -/
def replayBldgList (w scale maxH : ℚ) (bc : ℕ) :
    ℕ → ℕ → ℕ → List BldgR × ℕ
  | 0, _, c => ([], c)
  | fuel + 1, i, c =>
      let bx := ((i : ℚ) / (bc : ℚ)) * w + 0
      let bw := (18 + u42 (c + 1) * 22) * scale
      let bh := (30 + u42 (c + 3) * (maxH / scale)) * scale
      let rows := qFloorN (bh / (8 * scale))
      let cols := qFloorN (bw / (8 * scale))
      let rest := replayBldgList w scale maxH bc fuel (i + 1)
        (c + 4 + 2 * (rows * cols))
      (⟨bx, bw, bh⟩ :: rest.1, rest.2)

/-- Stars-then-buildings draw accounting of the static pass: the building
loop starts at cursor `4 * starCount`. -/
def staticStarsBldgs (population tech : ℤ) (w h scale : ℚ) : List BldgS × ℕ :=
  staticBldgList w scale (maxHeightOf population h) (groundYOf h)
    (buildingCountOf population) (buildingCountOf population) 0
    (4 * starCountOf tech)

/-- Stars-then-buildings draw accounting of the replay pass: it first
consumes `4 * starCount` draws (line 734), then replays the building
loop. -/
def replayStarsBldgs (population tech : ℤ) (w h scale : ℚ) : List BldgR × ℕ :=
  replayBldgList w scale (maxHeightOf population h)
    (buildingCountOf population) (buildingCountOf population) 0
    (4 * starCountOf tech)

/-- Antenna tips drawn by the static pass: buildings with
`bh > maxHeight * 0.6` when `tech > 50`, dot at
`(bx + bw/2, (groundY - bh) - 12*scale)` (lines 526-538). -/
def staticAntennaTips (population tech : ℤ) (w h scale : ℚ) : List (ℚ × ℚ) :=
  if 50 < tech then
    (((staticStarsBldgs population tech w h scale).1.filter
        (fun b => maxHeightOf population h * (6 / 10) < b.bh)).map
      (fun b => (b.bx + b.bw / 2, (groundYOf h - b.bh) - 12 * scale)))
  else []

/-- Blinking dots drawn by the replay pass: same filter and tip formula on
the re-derived buildings (lines 754-760). -/
def replayAntennaDots (population tech : ℤ) (w h scale : ℚ) : List (ℚ × ℚ) :=
  if 50 < tech then
    (((replayStarsBldgs population tech w h scale).1.filter
        (fun b => maxHeightOf population h * (6 / 10) < b.bh)).map
      (fun b => (b.bx + b.bw / 2, (groundYOf h - b.bh) - 12 * scale)))
  else []

/-- A tree: 4 draws for x, y-offset, size and green-channel jitter
(lines 544-560). -/
structure ScnTree where
  tx : ℚ
  ty : ℚ
  ts : ℚ
  greenVal : ℤ
deriving DecidableEq

/-- The tree pass (lines 542-561): if `greenery > 10`, `floor(greenery*0.2)`
trees of 4 draws each starting at cursor `c`. -/
def treeList (greenery : ℤ) (w scale groundY : ℚ) (c : ℕ) : List ScnTree × ℕ :=
  if 10 < greenery then
    let n := qFloorN ((greenery : ℚ) * (2 / 10))
    ((List.range n).map fun i =>
      ⟨u42 (c + 4 * i) * w,
       groundY - (u42 (c + 4 * i + 1) * 4 + 2) * scale,
       (3 + u42 (c + 4 * i + 2) * 4) * scale,
       94 + Int.floor (u42 (c + 4 * i + 3) * 50)⟩, c + 4 * n)
  else ([], c)

/-- A static flying vehicle: 2 draws for x and y (lines 566-581). -/
structure Veh where
  vx : ℚ
  vy : ℚ
deriving DecidableEq

/-- The flying-vehicle pass (lines 564-582): if `tech > 40` and transport
is `aerial`, `min(floor(tech*0.03), 3)` vehicles of 2 draws each. -/
def vehList (tech : ℤ) (transport : String) (w h _scale : ℚ) (c : ℕ) :
    List Veh × ℕ :=
  if 40 < tech ∧ transport = "aerial" then
    let n := min (qFloorN ((tech : ℚ) * (3 / 100))) 3
    ((List.range n).map fun i =>
      ⟨u42 (c + 2 * i) * w * (8 / 10) + w * (1 / 10),
       h * (12 / 100) + u42 (c + 2 * i + 1) * h * (25 / 100)⟩, c + 2 * n)
  else ([], c)

/-- Everything the static pass derives from the main seed-42 generator:
stars, buildings (with windows), trees, flying vehicles, and the final
draw cursor.  The hyperloop/teleport/fusion/wind decorations consume no
main draws, and the solar pass uses its own seed-99 generator. -/
structure MainLayout where
  stars : List ScnStar
  buildings : List BldgS
  trees : List ScnTree
  vehicles : List Veh
  cursorEnd : ℕ
deriving DecidableEq

/-- The main layout on integer field values. -/
def mainLayoutCore (population greenery tech : ℤ) (transport : String)
    (w h scale : ℚ) : MainLayout :=
  let sb := staticStarsBldgs population tech w h scale
  let tr := treeList greenery w scale (groundYOf h) sb.2
  let vh := vehList tech transport w h scale tr.2
  ⟨starList (starCountOf tech) w h scale, sb.1, tr.1, vh.1, vh.2⟩

/-- The main layout of the static scene as a function of `configState`. -/
def mainLayout (c : ConfigState) (w h scale : ℚ) : Option MainLayout :=
  match c.population, c.greenery, c.tech with
  | some p, some g, some t =>
      some (mainLayoutCore p g t c.transport w h scale)
  | _, _, _ => none

/-- One solar panel rectangle (lines 624-635). -/
structure Panel where
  px : ℚ
  py : ℚ
deriving DecidableEq

/-- The solar-panel pass: 4 panels whose y-positions use a second
generator seeded 99 (`const solarRng = createSeededRNG(99)`), never the
main seed-42 stream. -/
def solarPanelList (w _scale maxH groundY : ℚ) : List Panel :=
  (List.range 4).map fun (i : ℕ) =>
    ⟨w * (15 / 100) + (i : ℚ) * w * (18 / 100),
     groundY - maxH * ((3 / 10) + createSeededRNG 99 i * (35 / 100))⟩

/-! ## Hyperloop tube and capsule (src/app.js lines 585-595, 687-705) -/

/-- The y-position of tube `i`'s endpoints:
`py = groundY - (20 + i * 30) * scale`. -/
def tubePyOf (groundY scale : ℚ) (i : ℕ) : ℚ :=
  groundY - (20 + (i : ℚ) * 30) * scale

/-- The x-coordinate of the static tube's quadratic Bezier
`(0, py) -- (w/2, py - 15*scale) -- (w, py)` at parameter `t`. -/
def tubeXOf (w : ℚ) (t : ℚ) : ℚ :=
  2 * t * (1 - t) * (w / 2) + t ^ 2 * w

/-- The y-coordinate of the static tube's quadratic Bezier at parameter
`t`. -/
def tubeYOf (py scale : ℚ) (t : ℚ) : ℚ :=
  (1 - t) ^ 2 * py + 2 * t * (1 - t) * (py - 15 * scale) + t ^ 2 * py

/-- JavaScript `%` on nonnegative operands. -/
def jsMod (a b : ℚ) : ℚ := a - b * (Int.floor (a / b) : ℚ)

/-- The animated capsule's x-position:
`cx = (now / 80 + i * 350) % w` (line 691). -/
def capsuleXOf (now w : ℚ) (i : ℕ) : ℚ :=
  jsMod (now / 80 + (i : ℚ) * 350) w

/-- The animated capsule's center y at x-position `cx`:
`curveY = py - 15*scale*4*t*(1-t)` with `t = cx/w`, then the ellipse is
drawn at `curveY - 3*scale` (lines 693-696). -/
def capsuleCenterY (py scale w cx : ℚ) : ℚ :=
  (py - 15 * scale * 4 * (cx / w) * (1 - cx / w)) - 3 * scale

/-! ## Helper lemmas -/

lemma rngM_coprime : Nat.Coprime 2147483647 16807 := by
  unfold Nat.Coprime
  norm_num

lemma intFloor_eq {q : ℚ} {z : ℤ} (h1 : (z : ℚ) ≤ q) (h2 : q < z + 1) :
    Int.floor q = z :=
  Int.floor_eq_iff.mpr ⟨h1, h2⟩

lemma jsRound_eq {q : ℚ} {z : ℤ} (h1 : (z : ℚ) ≤ q + 1 / 2)
    (h2 : q + 1 / 2 < z + 1) : jsRound q = z :=
  intFloor_eq h1 h2

lemma qFloorN_eq {q : ℚ} {n : ℕ} (h1 : (n : ℚ) ≤ q) (h2 : q < n + 1) :
    qFloorN q = n := by
  unfold qFloorN
  rw [intFloor_eq (by exact_mod_cast h1) (by exact_mod_cast h2)]
  exact Int.toNat_natCast n

lemma rngState_bounds (seed : ℕ) (h1 : 1 ≤ seed) (h2 : seed ≤ 2147483646)
    (n : ℕ) : 1 ≤ rngState seed n ∧ rngState seed n ≤ 2147483646 := by
  induction n with
  | zero => exact ⟨h1, h2⟩
  | succ n ih =>
      obtain ⟨hl, hr⟩ := ih
      have hlt : rngState seed (n + 1) < 2147483647 :=
        Nat.mod_lt _ (by norm_num)
      refine ⟨?_, by omega⟩
      rcases Nat.eq_zero_or_pos (rngState seed (n + 1)) with h0 | hpos
      · exfalso
        have hdvd : (2147483647 : ℕ) ∣ rngState seed n * 16807 := by
          have : (rngState seed n * 16807 + 0) % 2147483647 = 0 := h0
          rw [Nat.add_zero] at this
          exact Nat.dvd_of_mod_eq_zero this
        have h : (2147483647 : ℕ) ∣ rngState seed n :=
          Nat.Coprime.dvd_of_dvd_mul_right rngM_coprime hdvd
        have := Nat.le_of_dvd (by omega) h
        omega
      · exact hpos

lemma jsRound_nonneg {q : ℚ} (h : 0 ≤ q) : 0 ≤ jsRound q := by
  unfold jsRound
  exact Int.le_floor.mpr (by push_cast; linarith)

lemma jsRound_le_100 {q : ℚ} (h : q ≤ 100) : jsRound q ≤ 100 := by
  unfold jsRound
  have : Int.floor (q + 1 / 2) < 101 := Int.floor_lt.mpr (by push_cast; linarith)
  omega

lemma energyBonus_bounds (e : String) : 10 ≤ energyBonus e ∧ energyBonus e ≤ 22 := by
  unfold energyBonus; split_ifs <;> norm_num

lemma transportBonus_bounds (t : String) :
    8 ≤ transportBonus t ∧ transportBonus t ≤ 15 := by
  unfold transportBonus; split_ifs <;> norm_num

lemma envBonus_bounds (e : String) : 3 ≤ envBonus e ∧ envBonus e ≤ 12 := by
  unfold envBonus; split_ifs <;> norm_num

lemma computeScoresCore_bounds (env en tr : String) (p g t : ℤ)
    (hp0 : 0 ≤ p) (hp1 : p ≤ 100) (hg0 : 0 ≤ g) (hg1 : g ≤ 100)
    (ht0 : 0 ≤ t) (ht1 : t ≤ 100) :
    (0 ≤ (computeScoresCore env en tr p g t).sustainability
      ∧ (computeScoresCore env en tr p g t).sustainability ≤ 100)
    ∧ (0 ≤ (computeScoresCore env en tr p g t).innovation
      ∧ (computeScoresCore env en tr p g t).innovation ≤ 100)
    ∧ (0 ≤ (computeScoresCore env en tr p g t).quality
      ∧ (computeScoresCore env en tr p g t).quality ≤ 100)
    ∧ (0 ≤ (computeScoresCore env en tr p g t).resilience
      ∧ (computeScoresCore env en tr p g t).resilience ≤ 100)
    ∧ (computeScoresCore env en tr p g t).livability
        = jsRound ((((computeScoresCore env en tr p g t).sustainability : ℚ)
          + ((computeScoresCore env en tr p g t).innovation : ℚ)
          + ((computeScoresCore env en tr p g t).quality : ℚ)
          + ((computeScoresCore env en tr p g t).resilience : ℚ)) / 4)
    ∧ 0 ≤ (computeScoresCore env en tr p g t).livability
    ∧ (computeScoresCore env en tr p g t).livability ≤ 100 := by
  have hp0' : (0 : ℚ) ≤ (p : ℚ) := by exact_mod_cast hp0
  have hp1' : (p : ℚ) ≤ 100 := by exact_mod_cast hp1
  have hg0' : (0 : ℚ) ≤ (g : ℚ) := by exact_mod_cast hg0
  have ht0' : (0 : ℚ) ≤ (t : ℚ) := by exact_mod_cast ht0
  obtain ⟨he1, he2⟩ := energyBonus_bounds en
  obtain ⟨htr1, htr2⟩ := transportBonus_bounds tr
  obtain ⟨hv1, hv2⟩ := envBonus_bounds env
  have t1 : (0 : ℚ) ≤ (g : ℚ) * (6 / 10) := by positivity
  have t2 : (0 : ℚ) ≤ ((100 : ℚ) - (p : ℚ)) * (15 / 100) := by
    apply mul_nonneg <;> linarith
  have t3 : (0 : ℚ) ≤ (t : ℚ) * (7 / 10) := by positivity
  have t4 : (0 : ℚ) ≤ (g : ℚ) * (3 / 10) := by positivity
  have t5 : (0 : ℚ) ≤ ((100 : ℚ) - (p : ℚ)) * (25 / 100) := by
    apply mul_nonneg <;> linarith
  have t6 : (0 : ℚ) ≤ (t : ℚ) * (2 / 10) := by positivity
  have t7 : (0 : ℚ) ≤ envBonus env * (3 / 2) := by
    apply mul_nonneg <;> linarith
  have t8 : (0 : ℚ) ≤ ((100 : ℚ) - (p : ℚ)) * (2 / 10) := by
    apply mul_nonneg <;> linarith
  have t9 : (0 : ℚ) ≤ (g : ℚ) * (2 / 10) := by positivity
  have t10 : (0 : ℚ) ≤ (t : ℚ) * (3 / 10) := by positivity
  have t11 : (0 : ℚ) ≤ energyBonus en * (3 / 10) := by
    apply mul_nonneg <;> linarith
  have hS : 0 ≤ (computeScoresCore env en tr p g t).sustainability :=
    le_min (by norm_num) (jsRound_nonneg (by linarith))
  have hS' : (computeScoresCore env en tr p g t).sustainability ≤ 100 :=
    min_le_left _ _
  have hI : 0 ≤ (computeScoresCore env en tr p g t).innovation :=
    le_min (by norm_num) (jsRound_nonneg (by linarith))
  have hI' : (computeScoresCore env en tr p g t).innovation ≤ 100 :=
    min_le_left _ _
  have hQ : 0 ≤ (computeScoresCore env en tr p g t).quality :=
    le_min (by norm_num) (jsRound_nonneg (by linarith))
  have hQ' : (computeScoresCore env en tr p g t).quality ≤ 100 :=
    min_le_left _ _
  have hR : 0 ≤ (computeScoresCore env en tr p g t).resilience :=
    le_min (by norm_num) (jsRound_nonneg (by linarith))
  have hR' : (computeScoresCore env en tr p g t).resilience ≤ 100 :=
    min_le_left _ _
  have hSq0 : (0 : ℚ) ≤ ((computeScoresCore env en tr p g t).sustainability : ℚ) := by
    exact_mod_cast hS
  have hSq1 : ((computeScoresCore env en tr p g t).sustainability : ℚ) ≤ 100 := by
    exact_mod_cast hS'
  have hIq0 : (0 : ℚ) ≤ ((computeScoresCore env en tr p g t).innovation : ℚ) := by
    exact_mod_cast hI
  have hIq1 : ((computeScoresCore env en tr p g t).innovation : ℚ) ≤ 100 := by
    exact_mod_cast hI'
  have hQq0 : (0 : ℚ) ≤ ((computeScoresCore env en tr p g t).quality : ℚ) := by
    exact_mod_cast hQ
  have hQq1 : ((computeScoresCore env en tr p g t).quality : ℚ) ≤ 100 := by
    exact_mod_cast hQ'
  have hRq0 : (0 : ℚ) ≤ ((computeScoresCore env en tr p g t).resilience : ℚ) := by
    exact_mod_cast hR
  have hRq1 : ((computeScoresCore env en tr p g t).resilience : ℚ) ≤ 100 := by
    exact_mod_cast hR'
  have hLiv : (computeScoresCore env en tr p g t).livability
      = jsRound ((((computeScoresCore env en tr p g t).sustainability : ℚ)
        + ((computeScoresCore env en tr p g t).innovation : ℚ)
        + ((computeScoresCore env en tr p g t).quality : ℚ)
        + ((computeScoresCore env en tr p g t).resilience : ℚ)) / 4) := rfl
  refine ⟨⟨hS, hS'⟩, ⟨hI, hI'⟩, ⟨hQ, hQ'⟩, ⟨hR, hR'⟩, hLiv, ?_, ?_⟩
  · rw [hLiv]
    exact jsRound_nonneg (by linarith)
  · rw [hLiv]
    exact jsRound_le_100 (by linarith)


lemma scoresDefault_aux :
    computeScores initialConfig = some ⟨58, 69, 46, 70, 61⟩ := by
  have e1 : energyBonus "solar" = 20 := by unfold energyBonus; rw [if_pos rfl]
  have e2 : transportBonus "aerial" = 10 := by
    unfold transportBonus; rw [if_pos rfl]
  have e3 : envBonus "urban" = 5 := by unfold envBonus; rw [if_pos rfl]
  have h1 : jsRound (((45 : ℤ) : ℚ) * (6 / 10) + 20
      + ((100 : ℚ) - ((60 : ℤ) : ℚ)) * (15 / 100) + 5) = 58 :=
    jsRound_eq (by norm_num) (by norm_num)
  have h2 : jsRound (((75 : ℤ) : ℚ) * (7 / 10) + 10 + 20 * (3 / 10)) = 69 :=
    jsRound_eq (by norm_num) (by norm_num)
  have h3 : jsRound (((45 : ℤ) : ℚ) * (3 / 10)
      + ((100 : ℚ) - ((60 : ℤ) : ℚ)) * (25 / 100)
      + ((75 : ℤ) : ℚ) * (2 / 10) + 5 * (3 / 2)) = 46 :=
    jsRound_eq (by norm_num) (by norm_num)
  have h4 : jsRound (((100 : ℚ) - ((60 : ℤ) : ℚ)) * (2 / 10)
      + ((45 : ℤ) : ℚ) * (2 / 10)
      + ((75 : ℤ) : ℚ) * (3 / 10) + 20 + 10) = 70 :=
    jsRound_eq (by norm_num) (by norm_num)
  have m1 : min (100 : ℤ) 58 = 58 := by decide
  have m2 : min (100 : ℤ) 69 = 69 := by decide
  have m3 : min (100 : ℤ) 46 = 46 := by decide
  have m4 : min (100 : ℤ) 70 = 70 := by decide
  have h5 : jsRound ((((58 : ℤ) : ℚ) + ((69 : ℤ) : ℚ) + ((46 : ℤ) : ℚ)
      + ((70 : ℤ) : ℚ)) / 4) = 61 :=
    jsRound_eq (by norm_num) (by norm_num)
  show some (computeScoresCore "urban" "solar" "aerial" 60 45 75) = _
  simp only [computeScoresCore]
  rw [e1, e2, e3, h1, h2, h3, h4, m1, m2, m3, m4, h5]

/-! ## Claim C2 -/

/-- C2 counterexample: `createSeededRNG(2147483647)` — a positive integer
seed — maps its state to 0 on the first advance and returns
`-1/2147483646`, which is not in `[0,1)`. -/
theorem createSeededRNG_seed_M_neg :
    createSeededRNG 2147483647 0 = -(1 / 2147483646)
      ∧ createSeededRNG 2147483647 0 < 0 := by
  have h0 : rngState 2147483647 1 = 0 := by decide
  unfold createSeededRNG
  rw [h0]
  norm_num

/-- C2 (amended to positive seeds at most 2147483646, the range that keeps
the state nonzero and every intermediate product exact): each call advances
the state by `state = (state * 16807 + 0) mod 2147483647`, every
intermediate product stays below `2^53`, the returned value is
`(state - 1) / 2147483646` and lies in `[0, 1)`.  Determinism with respect
to the seed is inherent: the embedding is a pure function of seed and call
index. -/
theorem createSeededRNG_spec (seed : ℕ) (h1 : 1 ≤ seed)
    (h2 : seed ≤ 2147483646) (n : ℕ) :
    rngState seed (n + 1) = (rngState seed n * 16807 + 0) % 2147483647
    ∧ 1 ≤ rngState seed (n + 1) ∧ rngState seed (n + 1) ≤ 2147483646
    ∧ rngState seed n * 16807 < 2 ^ 53
    ∧ createSeededRNG seed n = ((rngState seed (n + 1) : ℚ) - 1) / 2147483646
    ∧ 0 ≤ createSeededRNG seed n ∧ createSeededRNG seed n < 1 := by
  obtain ⟨hl, hr⟩ := rngState_bounds seed h1 h2 n
  obtain ⟨hl1, hr1⟩ := rngState_bounds seed h1 h2 (n + 1)
  refine ⟨rfl, hl1, hr1, ?_, rfl, ?_, ?_⟩
  · calc rngState seed n * 16807 ≤ 2147483646 * 16807 :=
          Nat.mul_le_mul_right _ hr
      _ < 2 ^ 53 := by norm_num
  · unfold createSeededRNG
    apply div_nonneg _ (by norm_num)
    have : (1 : ℚ) ≤ (rngState seed (n + 1) : ℚ) := by exact_mod_cast hl1
    linarith
  · unfold createSeededRNG
    rw [div_lt_one (by norm_num)]
    have : (rngState seed (n + 1) : ℚ) ≤ 2147483646 := by exact_mod_cast hr1
    linarith

/-- Witness for C2's amended theorem at seed 42, call 0. -/
theorem createSeededRNG_spec_witness :
    rngState 42 1 = (rngState 42 0 * 16807 + 0) % 2147483647
    ∧ 1 ≤ rngState 42 1 ∧ rngState 42 1 ≤ 2147483646
    ∧ rngState 42 0 * 16807 < 2 ^ 53
    ∧ createSeededRNG 42 0 = ((rngState 42 1 : ℚ) - 1) / 2147483646
    ∧ 0 ≤ createSeededRNG 42 0 ∧ createSeededRNG 42 0 < 1 :=
  createSeededRNG_spec 42 (by norm_num) (by norm_num) 0

/-! ## Claim C3 -/

/-- C3: for every valid Configuration, `computeScores` yields four scores
that are integers in `[0,100]`, and livability is the rounded mean of the
four, also in `[0,100]`. -/
theorem computeScores_bounds (c : ConfigState) (sc : Scores)
    (hv : validConfig c) (hsc : computeScores c = some sc) :
    (0 ≤ sc.sustainability ∧ sc.sustainability ≤ 100)
    ∧ (0 ≤ sc.innovation ∧ sc.innovation ≤ 100)
    ∧ (0 ≤ sc.quality ∧ sc.quality ≤ 100)
    ∧ (0 ≤ sc.resilience ∧ sc.resilience ≤ 100)
    ∧ sc.livability = jsRound (((sc.sustainability : ℚ) + (sc.innovation : ℚ)
        + (sc.quality : ℚ) + (sc.resilience : ℚ)) / 4)
    ∧ 0 ≤ sc.livability ∧ sc.livability ≤ 100 := by
  obtain ⟨-, ⟨p, hp, hp0, hp1⟩, -, ⟨g, hg, hg0, hg1⟩, -, ⟨t, ht, ht0, ht1⟩⟩ := hv
  have hcs : computeScores c
      = some (computeScoresCore c.environment c.energy c.transport p g t) := by
    unfold computeScores
    rw [hp, hg, ht]
  rw [hcs] at hsc
  cases hsc
  exact computeScoresCore_bounds c.environment c.energy c.transport p g t
    hp0 hp1 hg0 hg1 ht0 ht1

/-- Witness for C3 at the default configuration. -/
theorem computeScores_bounds_witness :
    (0 ≤ (58 : ℤ) ∧ (58 : ℤ) ≤ 100)
    ∧ (0 ≤ (69 : ℤ) ∧ (69 : ℤ) ≤ 100)
    ∧ (0 ≤ (46 : ℤ) ∧ (46 : ℤ) ≤ 100)
    ∧ (0 ≤ (70 : ℤ) ∧ (70 : ℤ) ≤ 100)
    ∧ (61 : ℤ) = jsRound ((((58 : ℤ) : ℚ) + ((69 : ℤ) : ℚ)
        + ((46 : ℤ) : ℚ) + ((70 : ℤ) : ℚ)) / 4)
    ∧ 0 ≤ (61 : ℤ) ∧ (61 : ℤ) ≤ 100 :=
  computeScores_bounds initialConfig ⟨58, 69, 46, 70, 61⟩ (by decide)
    scoresDefault_aux

/-! ## Claim C6 -/

/-- C6 counterexample: the default Configuration does not produce the
claimed scores 78/69/47/57/63. -/
theorem defaultScores_claim_false :
    computeScores initialConfig ≠ some ⟨78, 69, 47, 57, 63⟩ := by
  rw [scoresDefault_aux]
  decide

/-- C6 (amended): the default Configuration
`{urban, 60, solar, 45, aerial, 75}` yields sustainability 58,
innovation 69, quality 46, resilience 70 and livability 61. -/
theorem defaultScores_eval :
    computeScores initialConfig = some ⟨58, 69, 46, 70, 61⟩ :=
  scoresDefault_aux

/-! ## Claim C9 -/

/-- C9: with `environment = "swamp"` (outside the enum) and the other
fields valid, `computeScores` succeeds and returns exactly the stated
formulas with the default environment bonus 5 substituted. -/
theorem computeScores_swamp_default (e tr : String) (p g t : ℤ)
    (he : e ∈ energies) (htr : tr ∈ transports)
    (hp : 0 ≤ p ∧ p ≤ 100) (hg : 0 ≤ g ∧ g ≤ 100) (ht : 0 ≤ t ∧ t ≤ 100) :
    computeScores ⟨"swamp", some p, e, some g, tr, some t⟩
      = some (specScoresWithEnvBonus 5 e tr p g t) := by
  have h5 : envBonus "swamp" = 5 := by decide
  show some (computeScoresCore "swamp" e tr p g t)
      = some (specScoresWithEnvBonus 5 e tr p g t)
  unfold computeScoresCore specScoresWithEnvBonus
  rw [h5]

/-- Witness for C9 at the default field values. -/
theorem computeScores_swamp_default_witness :
    computeScores ⟨"swamp", some 60, "solar", some 45, "aerial", some 75⟩
      = some (specScoresWithEnvBonus 5 "solar" "aerial" 60 45 75) :=
  computeScores_swamp_default "solar" "aerial" 60 45 75 (by decide) (by decide)
    (by decide) (by decide) (by decide)

/-! ## Claim C5 -/

/-- C5 counterexample: a crafted shareable link (`env=swamp&pop=200`)
drives `loadFromURL` to a Configuration violating the invariant: the
environment is outside the enum and population is assigned unclamped. -/
theorem loadFromURL_invariant_violation :
    loadFromURL ⟨some "swamp", some "200", none, none, none, none⟩ initialConfig
      = ⟨"swamp", some 200, "solar", some 45, "aerial", some 75⟩
    ∧ ¬ validConfig (loadFromURL ⟨some "swamp", some "200", none, none, none, none⟩
        initialConfig) := by
  constructor
  · decide
  · decide

/-- C5 (amended): the startup defaults satisfy the invariant, and every UI
mutation path preserves it given the values the controls can supply
(slider values are decimal integers in `[0,100]` by their HTML `min`/`max`
attributes, toggle and select values are the enumerated options — the HTML
is not part of `src/`, so those control constraints appear as hypotheses);
`loadFromURL`, by contrast, assigns URL parameters unvalidated (see the
counterexample). -/
theorem configInvariant_spec :
    validConfig initialConfig
    ∧ (∀ c v, validConfig c → v ∈ energies →
        validConfig (setEnergyToggle c v))
    ∧ (∀ c v, validConfig c → v ∈ transports →
        validConfig (setTransportToggle c v))
    ∧ (∀ c v, validConfig c → v ∈ environments →
        validConfig (setEnvironmentSelect c v))
    ∧ (∀ c s k, validConfig c → jsParseInt s = some k → 0 ≤ k → k ≤ 100 →
        validConfig (popSliderInput c s))
    ∧ (∀ c s k, validConfig c → jsParseInt s = some k → 0 ≤ k → k ≤ 100 →
        validConfig (greenSliderInput c s))
    ∧ (∀ c s k, validConfig c → jsParseInt s = some k → 0 ≤ k → k ≤ 100 →
        validConfig (techSliderInput c s)) := by
  refine ⟨by decide, ?_, ?_, ?_, ?_, ?_, ?_⟩
  · rintro c v ⟨h1, h2, h3, h4, h5, h6⟩ hv
    exact ⟨h1, h2, hv, h4, h5, h6⟩
  · rintro c v ⟨h1, h2, h3, h4, h5, h6⟩ hv
    exact ⟨h1, h2, h3, h4, hv, h6⟩
  · rintro c v ⟨h1, h2, h3, h4, h5, h6⟩ hv
    exact ⟨hv, h2, h3, h4, h5, h6⟩
  · rintro c s k ⟨h1, h2, h3, h4, h5, h6⟩ hk hk0 hk1
    exact ⟨h1, ⟨k, hk, hk0, hk1⟩, h3, h4, h5, h6⟩
  · rintro c s k ⟨h1, h2, h3, h4, h5, h6⟩ hk hk0 hk1
    exact ⟨h1, h2, h3, ⟨k, hk, hk0, hk1⟩, h5, h6⟩
  · rintro c s k ⟨h1, h2, h3, h4, h5, h6⟩ hk hk0 hk1
    exact ⟨h1, h2, h3, h4, h5, ⟨k, hk, hk0, hk1⟩⟩

/-- Witness for C5's amended theorem: a concrete slider input and a
concrete toggle click, applied to the default configuration. -/
theorem configInvariant_spec_witness :
    validConfig initialConfig
    ∧ validConfig (popSliderInput initialConfig "50")
    ∧ validConfig (setEnergyToggle initialConfig "wind") :=
  ⟨configInvariant_spec.1,
   configInvariant_spec.2.2.2.2.1 initialConfig "50" 50
     configInvariant_spec.1 (by decide) (by decide) (by decide),
   configInvariant_spec.2.1 initialConfig "wind"
     configInvariant_spec.1 (by decide)⟩

/-! ## Claim C7 -/

/-- C7 (code bug, evaluated at the failing input): with canvas 600 by 400
(scale 1), tube 0 has `py = 220`; at timestamp 24000 the capsule sits at
`cx = 300 = w/2`, which is tube parameter `t = 1/2`; there the Bezier tube
lies at `y = 212.5`, so the claimed capsule center would be `209.5`, but
the code places the capsule center at `202` — the capsule parabola doubles
the arc's depth, so it is not the tube curve offset by `3 * scale`. -/
theorem hyperloopCapsule_offCurve_eval :
    tubePyOf (groundYOf 400) 1 0 = 220
    ∧ capsuleXOf 24000 600 0 = 300
    ∧ tubeXOf 600 (1 / 2) = 300
    ∧ tubeYOf 220 1 (1 / 2) = 425 / 2
    ∧ capsuleCenterY 220 1 600 300 = 202
    ∧ capsuleCenterY 220 1 600 300 ≠ tubeYOf 220 1 (1 / 2) - 3 * 1 := by
  refine ⟨by unfold tubePyOf groundYOf; norm_num, ?_,
    by unfold tubeXOf; norm_num, by unfold tubeYOf; norm_num,
    by unfold capsuleCenterY; norm_num,
    by unfold capsuleCenterY tubeYOf; norm_num⟩
  unfold capsuleXOf jsMod
  rw [show Int.floor ((24000 / 80 + ((0 : ℕ) : ℚ) * 350) / 600) = 0 from
    intFloor_eq (by norm_num) (by norm_num)]
  norm_num

/-! ## Claim C8 -/

/-- C8: the static scene's main layout — every star, building, window,
tree and vehicle together with the final draw cursor of the seed-42
stream — is the same whether energy is `solar` or any of `fusion`, `wind`,
`tidal`: the solar-panel pass runs on its own seed-99 generator
(`solarPanelList`) and consumes zero draws from the main generator. -/
theorem solarPass_main_independent (c : ConfigState) (w h scale : ℚ)
    (e : String) (he : e ∈ ["fusion", "wind", "tidal"]) :
    mainLayout { c with energy := "solar" } w h scale
      = mainLayout { c with energy := e } w h scale := rfl

/-- Witness for C8 at the default configuration against `fusion`. -/
theorem solarPass_main_independent_witness :
    mainLayout { initialConfig with energy := "solar" } 600 400 1
      = mainLayout { initialConfig with energy := "fusion" } 600 400 1 :=
  solarPass_main_independent initialConfig 600 400 1 "fusion" (by decide)

/-! ## Claim C10 -/

/-- C10: a `renderCityCanvas` call never mutates the Configuration or the
canvas geometry: it writes only the cache cell (`staticSceneCache`,
`lastConfigKey`) and allocates rasters.  (`renderStaticScene` itself is
embedded as the pure functions `mainLayoutCore`/`solarPanelList`: its only
JavaScript side effect is drawing on its own fresh offscreen canvas.) -/
theorem render_preserves_config (s : AppState) :
    (renderCityCanvasStep s).1.config = s.config
    ∧ (renderCityCanvasStep s).1.offsetW = s.offsetW
    ∧ (renderCityCanvasStep s).1.offsetH = s.offsetH := by
  simp only [renderCityCanvasStep]
  split
  · exact ⟨rfl, rfl, rfl⟩
  · exact ⟨rfl, rfl, rfl⟩

/-! ## Cache-key injectivity (for claim C4) -/

lemma digitChar_injOn : ∀ a < 10, ∀ b < 10,
    Nat.digitChar a = Nat.digitChar b → a = b := by decide

lemma digitChar_ne_pipe : ∀ a < 10, Nat.digitChar a ≠ '|' := by decide

lemma mapDigitChar_inj : ∀ l1 l2 : List ℕ, (∀ x ∈ l1, x < 10) →
    (∀ x ∈ l2, x < 10) → l1.map Nat.digitChar = l2.map Nat.digitChar →
    l1 = l2 := by
  intro l1
  induction l1 with
  | nil =>
      intro l2 _ _ h
      cases l2 with
      | nil => rfl
      | cons b t => simp at h
  | cons a t ih =>
      intro l2 h1 h2 h
      cases l2 with
      | nil => simp at h
      | cons b t2 =>
          simp only [List.map_cons, List.cons.injEq] at h
          have ha : a < 10 := h1 a (List.mem_cons_self a t)
          have hb : b < 10 := h2 b (List.mem_cons_self b t2)
          have hab : a = b := digitChar_injOn a ha b hb h.1
          subst hab
          rw [ih t2 (fun x hx => h1 x (List.mem_cons_of_mem _ hx))
            (fun x hx => h2 x (List.mem_cons_of_mem _ hx)) h.2]

lemma natDecStr_inj {n m : ℕ} (h : natDecStr n = natDecStr m) : n = m := by
  have hone : ∀ k : ℕ, k ≠ 0 →
      (natDecStr k).data = (Nat.digits 10 k).reverse.map Nat.digitChar := by
    intro k hk
    unfold natDecStr
    rw [if_neg hk]
  have hzero : ∀ k : ℕ, k ≠ 0 → natDecStr k ≠ "0" := by
    intro k hk hq
    have hd : (Nat.digits 10 k).reverse.map Nat.digitChar = ['0'] := by
      rw [← hone k hk, hq]
    have : Nat.digits 10 k = [0] := by
      rcases hrev : (Nat.digits 10 k).reverse with - | ⟨d, t⟩
      · rw [hrev] at hd; simp at hd
      · rw [hrev] at hd
        cases t with
        | cons x xs => simp at hd
        | nil =>
            simp only [List.map_cons, List.map_nil, List.cons.injEq] at hd
            have hdm : d ∈ Nat.digits 10 k := by
              rw [← List.mem_reverse, hrev]
              exact List.mem_cons_self d []
            have hd10 : d < 10 := Nat.digits_lt_base (by norm_num) hdm
            have hd0 : d = 0 := digitChar_injOn d hd10 0 (by norm_num) hd.1
            have : (Nat.digits 10 k).reverse = [0] := by rw [hrev, hd0]
            calc Nat.digits 10 k = (Nat.digits 10 k).reverse.reverse := by
                  rw [List.reverse_reverse]
              _ = [0] := by rw [this]; rfl
    have : k = 0 := by
      have hk0 := Nat.ofDigits_digits 10 k
      rw [this] at hk0
      simpa [Nat.ofDigits] using hk0.symm
    exact hk this
  by_cases hn : n = 0 <;> by_cases hm : m = 0
  · rw [hn, hm]
  · exfalso
    apply hzero m hm
    rw [← h, hn]
    rfl
  · exfalso
    apply hzero n hn
    rw [h, hm]
    rfl
  · have hdig : (Nat.digits 10 n).reverse.map Nat.digitChar
        = (Nat.digits 10 m).reverse.map Nat.digitChar := by
      rw [← hone n hn, ← hone m hm, h]
    have hbound : ∀ k : ℕ, ∀ x ∈ (Nat.digits 10 k).reverse, x < 10 := by
      intro k x hx
      exact Nat.digits_lt_base (by norm_num) (List.mem_reverse.mp hx)
    have := mapDigitChar_inj _ _ (hbound n) (hbound m) hdig
    have := List.reverse_injective this
    exact Nat.digits_inj_iff.mp this

lemma natDecStr_no_pipe (n : ℕ) : '|' ∉ (natDecStr n).data := by
  by_cases hn : n = 0
  · rw [hn]
    decide
  · unfold natDecStr
    rw [if_neg hn]
    intro hmem
    obtain ⟨d, hd, hdc⟩ := List.mem_map.mp hmem
    have hd10 : d < 10 := Nat.digits_lt_base (by norm_num) (List.mem_reverse.mp hd)
    exact digitChar_ne_pipe d hd10 hdc

lemma jsNumStr_valid_eq {n : ℤ} (h : 0 ≤ n) :
    jsNumStr (some n) = natDecStr n.natAbs := by
  show jsIntStr n = natDecStr n.natAbs
  unfold jsIntStr
  rw [if_neg (not_lt.mpr h)]

lemma jsNumStr_inj {n m : ℤ} (hn : 0 ≤ n) (hm : 0 ≤ m)
    (h : jsNumStr (some n) = jsNumStr (some m)) : n = m := by
  rw [jsNumStr_valid_eq hn, jsNumStr_valid_eq hm] at h
  have := natDecStr_inj h
  omega

lemma environments_no_pipe : ∀ e ∈ environments, '|' ∉ e.data := by decide

lemma energies_no_pipe : ∀ e ∈ energies, '|' ∉ e.data := by decide

lemma transports_no_pipe : ∀ e ∈ transports, '|' ∉ e.data := by decide

lemma append_pipe_cancel : ∀ a b rest rest2 : List Char, '|' ∉ a → '|' ∉ b →
    a ++ '|' :: rest = b ++ '|' :: rest2 → a = b ∧ rest = rest2 := by
  intro a
  induction a with
  | nil =>
      intro b rest rest2 _ hb h
      cases b with
      | nil => simpa using h
      | cons c bt =>
          simp only [List.nil_append, List.cons_append, List.cons.injEq] at h
          exact absurd (h.1 ▸ List.mem_cons_self c bt) hb
  | cons c ct ih =>
      intro b rest rest2 ha hb h
      cases b with
      | nil =>
          simp only [List.cons_append, List.nil_append, List.cons.injEq] at h
          exact absurd (h.1 ▸ List.mem_cons_self c ct) ha
      | cons d bt =>
          simp only [List.cons_append, List.cons.injEq] at h
          obtain ⟨hcd, h2⟩ := h
          have ha2 : '|' ∉ ct := fun hx => ha (List.mem_cons_of_mem _ hx)
          have hb2 : '|' ∉ bt := fun hx => hb (List.mem_cons_of_mem _ hx)
          obtain ⟨he, hr⟩ := ih bt rest rest2 ha2 hb2 h2
          exact ⟨by rw [hcd, he], hr⟩

lemma joinPipe_inj : ∀ l1 l2 : List (List Char), l1.length = l2.length →
    (∀ a ∈ l1, '|' ∉ a) → (∀ a ∈ l2, '|' ∉ a) →
    joinPipe l1 = joinPipe l2 → l1 = l2 := by
  intro l1
  induction l1 with
  | nil =>
      intro l2 hlen _ _ _
      cases l2 with
      | nil => rfl
      | cons b t => simp at hlen
  | cons a t ih =>
      intro l2 hlen h1 h2 h
      cases l2 with
      | nil => simp at hlen
      | cons b t2 =>
          cases t with
          | nil =>
              cases t2 with
              | nil =>
                  rw [show joinPipe [a] = a from rfl,
                    show joinPipe [b] = b from rfl] at h
                  rw [h]
              | cons z zs => simp at hlen
          | cons y ys =>
              cases t2 with
              | nil => simp at hlen
              | cons z zs =>
                  rw [show joinPipe (a :: y :: ys)
                      = a ++ '|' :: joinPipe (y :: ys) from rfl,
                    show joinPipe (b :: z :: zs)
                      = b ++ '|' :: joinPipe (z :: zs) from rfl] at h
                  obtain ⟨hab, hrest⟩ := append_pipe_cancel a b _ _
                    (h1 a (List.mem_cons_self a _))
                    (h2 b (List.mem_cons_self b _)) h
                  have htail := ih (z :: zs) (by simpa using hlen)
                    (fun x hx => h1 x (List.mem_cons_of_mem _ hx))
                    (fun x hx => h2 x (List.mem_cons_of_mem _ hx)) hrest
                  rw [hab, htail]

lemma joinPipe_cons_cons_ne_nil (a b : List Char) (rest : List (List Char)) :
    joinPipe (a :: b :: rest) ≠ [] := by
  cases a <;> simp [joinPipe]

lemma getConfigKey_ne_empty (c : ConfigState) (ow oh : ℕ) :
    getConfigKey c ow oh ≠ "" := by
  unfold getConfigKey
  intro h
  have hd : joinPipe [c.environment.data, (jsNumStr c.population).data,
      c.energy.data, (jsNumStr c.greenery).data, c.transport.data,
      (jsNumStr c.tech).data, (natDecStr ow).data, (natDecStr oh).data]
      = ([] : List Char) := congrArg String.data h
  exact joinPipe_cons_cons_ne_nil _ _ _ hd

lemma getConfigKey_inj {c c2 : ConfigState} {ow oh ow2 oh2 : ℕ}
    (hv : validConfig c) (hv2 : validConfig c2)
    (h : getConfigKey c ow oh = getConfigKey c2 ow2 oh2) :
    c = c2 ∧ ow = ow2 ∧ oh = oh2 := by
  obtain ⟨he, ⟨p, hp, hp0, -⟩, hen, ⟨g, hg, hg0, -⟩, htr, ⟨t, ht, ht0, -⟩⟩ := hv
  obtain ⟨he2, ⟨p2, hp2, hp20, -⟩, hen2, ⟨g2, hg2, hg20, -⟩, htr2,
    ⟨t2, ht2, ht20, -⟩⟩ := hv2
  unfold getConfigKey at h
  have hdata : joinPipe [c.environment.data, (jsNumStr c.population).data,
      c.energy.data, (jsNumStr c.greenery).data, c.transport.data,
      (jsNumStr c.tech).data, (natDecStr ow).data, (natDecStr oh).data]
      = joinPipe [c2.environment.data, (jsNumStr c2.population).data,
      c2.energy.data, (jsNumStr c2.greenery).data, c2.transport.data,
      (jsNumStr c2.tech).data, (natDecStr ow2).data, (natDecStr oh2).data] := by
    injection h
  have hmem : ∀ (cc : ConfigState) (pp gg tt : ℤ) (w1 w2 : ℕ),
      cc.population = some pp → 0 ≤ pp → cc.greenery = some gg → 0 ≤ gg →
      cc.tech = some tt → 0 ≤ tt → cc.environment ∈ environments →
      cc.energy ∈ energies → cc.transport ∈ transports →
      ∀ a ∈ [cc.environment.data, (jsNumStr cc.population).data,
        cc.energy.data, (jsNumStr cc.greenery).data, cc.transport.data,
        (jsNumStr cc.tech).data, (natDecStr w1).data, (natDecStr w2).data],
      '|' ∉ a := by
    intro cc pp gg tt w1 w2 hpp hpp0 hgg hgg0 htt htt0 henv hene htra a ha
    simp only [List.mem_cons, List.not_mem_nil, or_false] at ha
    rcases ha with rfl | rfl | rfl | rfl | rfl | rfl | rfl | rfl
    · exact environments_no_pipe _ henv
    · rw [hpp, jsNumStr_valid_eq hpp0]
      exact natDecStr_no_pipe _
    · exact energies_no_pipe _ hene
    · rw [hgg, jsNumStr_valid_eq hgg0]
      exact natDecStr_no_pipe _
    · exact transports_no_pipe _ htra
    · rw [htt, jsNumStr_valid_eq htt0]
      exact natDecStr_no_pipe _
    · exact natDecStr_no_pipe _
    · exact natDecStr_no_pipe _
  have hcomp := joinPipe_inj
    [c.environment.data, (jsNumStr c.population).data, c.energy.data,
      (jsNumStr c.greenery).data, c.transport.data, (jsNumStr c.tech).data,
      (natDecStr ow).data, (natDecStr oh).data]
    [c2.environment.data, (jsNumStr c2.population).data, c2.energy.data,
      (jsNumStr c2.greenery).data, c2.transport.data, (jsNumStr c2.tech).data,
      (natDecStr ow2).data, (natDecStr oh2).data] rfl
    (hmem c p g t ow oh hp hp0 hg hg0 ht ht0 he hen htr)
    (hmem c2 p2 g2 t2 ow2 oh2 hp2 hp20 hg2 hg20 ht2 ht20 he2 hen2 htr2) hdata
  simp only [List.cons.injEq, and_true] at hcomp
  obtain ⟨h1, h2, h3, h4, h5, h6, h7, h8⟩ := hcomp
  have henv : c.environment = c2.environment := congrArg String.mk h1
  have hpop : c.population = c2.population := by
    rw [hp, hp2]
    have : jsNumStr (some p) = jsNumStr (some p2) := by
      rw [← hp, ← hp2]
      exact congrArg String.mk h2
    rw [jsNumStr_inj hp0 hp20 this]
  have hene : c.energy = c2.energy := congrArg String.mk h3
  have hgrn : c.greenery = c2.greenery := by
    rw [hg, hg2]
    have : jsNumStr (some g) = jsNumStr (some g2) := by
      rw [← hg, ← hg2]
      exact congrArg String.mk h4
    rw [jsNumStr_inj hg0 hg20 this]
  have htra : c.transport = c2.transport := congrArg String.mk h5
  have htch : c.tech = c2.tech := by
    rw [ht, ht2]
    have : jsNumStr (some t) = jsNumStr (some t2) := by
      rw [← ht, ← ht2]
      exact congrArg String.mk h6
    rw [jsNumStr_inj ht0 ht20 this]
  have how : ow = ow2 := natDecStr_inj (congrArg String.mk h7)
  have hoh : oh = oh2 := natDecStr_inj (congrArg String.mk h8)
  refine ⟨?_, how, hoh⟩
  cases c
  cases c2
  dsimp only at henv hpop hene hgrn htra htch
  rw [henv, hpop, hene, hgrn, htra, htch]

/-! ## Claim C4 -/

/-- C4: starting from the startup cache state (`lastConfigKey = ''`,
empty cache), the first `renderCityCanvas` call renders a fresh raster and
caches it (the cache holds this single entry); a second call with the
unchanged Configuration and canvas size is a cache hit: it returns the
same cached raster and leaves the state — in particular the allocation
counter — untouched (no re-render); and for any valid Configuration or
canvas size differing in anything, the pipe-joined cache key differs and
the call renders a fresh raster distinct from the cached one. -/
theorem sceneCache_spec (cfg cfg2 : ConfigState) (ow oh ow2 oh2 a0 : ℕ)
    (hv : validConfig cfg) (hv2 : validConfig cfg2)
    (hne : ¬(cfg2 = cfg ∧ ow2 = ow ∧ oh2 = oh)) :
    renderCityCanvasStep ⟨cfg, ow, oh, "", none, a0⟩
      = (⟨cfg, ow, oh, getConfigKey cfg ow oh,
          some ⟨a0, getConfigKey cfg ow oh⟩, a0 + 1⟩,
         some ⟨a0, getConfigKey cfg ow oh⟩)
    ∧ renderCityCanvasStep ⟨cfg, ow, oh, getConfigKey cfg ow oh,
          some ⟨a0, getConfigKey cfg ow oh⟩, a0 + 1⟩
      = (⟨cfg, ow, oh, getConfigKey cfg ow oh,
          some ⟨a0, getConfigKey cfg ow oh⟩, a0 + 1⟩,
         some ⟨a0, getConfigKey cfg ow oh⟩)
    ∧ getConfigKey cfg2 ow2 oh2 ≠ getConfigKey cfg ow oh
    ∧ renderCityCanvasStep ⟨cfg2, ow2, oh2, getConfigKey cfg ow oh,
          some ⟨a0, getConfigKey cfg ow oh⟩, a0 + 1⟩
      = (⟨cfg2, ow2, oh2, getConfigKey cfg2 ow2 oh2,
          some ⟨a0 + 1, getConfigKey cfg2 ow2 oh2⟩, a0 + 1 + 1⟩,
         some ⟨a0 + 1, getConfigKey cfg2 ow2 oh2⟩)
    ∧ (some ⟨a0 + 1, getConfigKey cfg2 ow2 oh2⟩ : Option Raster)
        ≠ some ⟨a0, getConfigKey cfg ow oh⟩ := by
  have hkey2 : getConfigKey cfg2 ow2 oh2 ≠ getConfigKey cfg ow oh := by
    intro hk
    exact hne (getConfigKey_inj hv2 hv hk)
  refine ⟨?_, ?_, hkey2, ?_, ?_⟩
  · simp only [renderCityCanvasStep]
    rw [if_neg (getConfigKey_ne_empty cfg ow oh)]
  · simp [renderCityCanvasStep]
  · simp only [renderCityCanvasStep]
    rw [if_neg hkey2]
  · intro h
    simp only [Option.some.injEq, Raster.mk.injEq] at h
    omega

/-- Witness for C4: default configuration on a 600 by 400 canvas versus
the same configuration with tech changed from 75 to 76. -/
theorem sceneCache_spec_witness :
    renderCityCanvasStep ⟨initialConfig, 600, 400, "", none, 0⟩
      = (⟨initialConfig, 600, 400, getConfigKey initialConfig 600 400,
          some ⟨0, getConfigKey initialConfig 600 400⟩, 0 + 1⟩,
         some ⟨0, getConfigKey initialConfig 600 400⟩)
    ∧ renderCityCanvasStep ⟨initialConfig, 600, 400,
          getConfigKey initialConfig 600 400,
          some ⟨0, getConfigKey initialConfig 600 400⟩, 0 + 1⟩
      = (⟨initialConfig, 600, 400, getConfigKey initialConfig 600 400,
          some ⟨0, getConfigKey initialConfig 600 400⟩, 0 + 1⟩,
         some ⟨0, getConfigKey initialConfig 600 400⟩)
    ∧ getConfigKey { initialConfig with tech := some 76 } 600 400
        ≠ getConfigKey initialConfig 600 400
    ∧ renderCityCanvasStep ⟨{ initialConfig with tech := some 76 }, 600, 400,
          getConfigKey initialConfig 600 400,
          some ⟨0, getConfigKey initialConfig 600 400⟩, 0 + 1⟩
      = (⟨{ initialConfig with tech := some 76 }, 600, 400,
          getConfigKey { initialConfig with tech := some 76 } 600 400,
          some ⟨0 + 1, getConfigKey { initialConfig with tech := some 76 } 600 400⟩,
          0 + 1 + 1⟩,
         some ⟨0 + 1, getConfigKey { initialConfig with tech := some 76 } 600 400⟩)
    ∧ (some ⟨0 + 1, getConfigKey { initialConfig with tech := some 76 } 600 400⟩
        : Option Raster)
        ≠ some ⟨0, getConfigKey initialConfig 600 400⟩ :=
  sceneCache_spec initialConfig { initialConfig with tech := some 76 }
    600 400 600 400 0 (by decide) (by decide) (by decide)

/-! ## Replay desync (for claim C1) -/

lemma rngState_closed (seed : ℕ) (hs : seed < 2147483647) :
    ∀ n, rngState seed n = seed * 16807 ^ n % 2147483647 := by
  intro n
  induction n with
  | zero => simp [rngState, Nat.mod_eq_of_lt hs]
  | succ n ih =>
      show rngStep (rngState seed n) = _
      rw [ih]
      unfold rngStep
      rw [Nat.add_zero, Nat.mod_mul_mod, mul_assoc, pow_succ]

lemma u42_eval {n s : ℕ} (hs : 42 * 16807 ^ (n + 1) % 2147483647 = s) :
    u42 n = ((s : ℚ) - 1) / 2147483646 := by
  unfold u42 createSeededRNG
  rw [rngState_closed 42 (by norm_num) (n + 1), hs]

lemma staticBldgList_succ (w scale maxH groundY : ℚ) (bc fuel i c : ℕ) :
    staticBldgList w scale maxH groundY bc (fuel + 1) i c
      = (⟨((i : ℚ) / (bc : ℚ)) * w + (u42 c - 1 / 2) * w * (4 / 100),
          (18 + u42 (c + 1) * 22) * scale,
          (30 + u42 (c + 2) * (maxH / scale)) * scale,
          windowGrid (((i : ℚ) / (bc : ℚ)) * w + (u42 c - 1 / 2) * w * (4 / 100))
            (groundY - (30 + u42 (c + 2) * (maxH / scale)) * scale) scale
            (qFloorN ((30 + u42 (c + 2) * (maxH / scale)) * scale / (8 * scale)))
            (qFloorN ((18 + u42 (c + 1) * 22) * scale / (8 * scale))) (c + 3)⟩
          :: (staticBldgList w scale maxH groundY bc fuel (i + 1)
            (c + 3 + 2 * (qFloorN ((30 + u42 (c + 2) * (maxH / scale)) * scale / (8 * scale))
              * qFloorN ((18 + u42 (c + 1) * 22) * scale / (8 * scale))))).1,
        (staticBldgList w scale maxH groundY bc fuel (i + 1)
            (c + 3 + 2 * (qFloorN ((30 + u42 (c + 2) * (maxH / scale)) * scale / (8 * scale))
              * qFloorN ((18 + u42 (c + 1) * 22) * scale / (8 * scale))))).2) := rfl

lemma replayBldgList_succ (w scale maxH : ℚ) (bc fuel i c : ℕ) :
    replayBldgList w scale maxH bc (fuel + 1) i c
      = (⟨((i : ℚ) / (bc : ℚ)) * w + 0,
          (18 + u42 (c + 1) * 22) * scale,
          (30 + u42 (c + 3) * (maxH / scale)) * scale⟩
          :: (replayBldgList w scale maxH bc fuel (i + 1)
            (c + 4 + 2 * (qFloorN ((30 + u42 (c + 3) * (maxH / scale)) * scale / (8 * scale))
              * qFloorN ((18 + u42 (c + 1) * 22) * scale / (8 * scale))))).1,
        (replayBldgList w scale maxH bc fuel (i + 1)
            (c + 4 + 2 * (qFloorN ((30 + u42 (c + 3) * (maxH / scale)) * scale / (8 * scale))
              * qFloorN ((18 + u42 (c + 1) * 22) * scale / (8 * scale))))).2) := rfl


lemma staticSnd_step {w scale maxH groundY : ℚ} {bc fuel i c rows cols c2 n : ℕ}
    (hr : qFloorN ((30 + u42 (c + 2) * (maxH / scale)) * scale / (8 * scale)) = rows)
    (hc : qFloorN ((18 + u42 (c + 1) * 22) * scale / (8 * scale)) = cols)
    (hc2 : c + 3 + 2 * (rows * cols) = c2)
    (h : (staticBldgList w scale maxH groundY bc fuel (i + 1) c2).2 = n) :
    (staticBldgList w scale maxH groundY bc (fuel + 1) i c).2 = n := by
  rw [staticBldgList_succ]
  dsimp only
  rw [hr, hc, hc2]
  exact h

lemma replaySnd_step {w scale maxH : ℚ} {bc fuel i c rows cols c2 n : ℕ}
    (hr : qFloorN ((30 + u42 (c + 3) * (maxH / scale)) * scale / (8 * scale)) = rows)
    (hc : qFloorN ((18 + u42 (c + 1) * 22) * scale / (8 * scale)) = cols)
    (hc2 : c + 4 + 2 * (rows * cols) = c2)
    (h : (replayBldgList w scale maxH bc fuel (i + 1) c2).2 = n) :
    (replayBldgList w scale maxH bc (fuel + 1) i c).2 = n := by
  rw [replayBldgList_succ]
  dsimp only
  rw [hr, hc, hc2]
  exact h

lemma staticSnd_eval :
    (staticBldgList 600 1 (48 / 5) 48 6 6 0 120).2 = 254 := by
  have hu_120_1 : u42 (120 + 1) = (((1143969277 : ℕ) : ℚ) - 1) / 2147483646 :=
    u42_eval (by norm_num)
  have hu_120_2 : u42 (120 + 2) = (((270546948 : ℕ) : ℚ) - 1) / 2147483646 :=
    u42_eval (by norm_num)
  have hu_141_1 : u42 (141 + 1) = (((769095115 : ℕ) : ℚ) - 1) / 2147483646 :=
    u42_eval (by norm_num)
  have hu_141_2 : u42 (141 + 2) = (((477526512 : ℕ) : ℚ) - 1) / 2147483646 :=
    u42_eval (by norm_num)
  have hu_168_1 : u42 (168 + 1) = (((500680429 : ℕ) : ℚ) - 1) / 2147483646 :=
    u42_eval (by norm_num)
  have hu_168_2 : u42 (168 + 2) = (((1095041257 : ℕ) : ℚ) - 1) / 2147483646 :=
    u42_eval (by norm_num)
  have hu_187_1 : u42 (187 + 1) = (((1085069696 : ℕ) : ℚ) - 1) / 2147483646 :=
    u42_eval (by norm_num)
  have hu_187_2 : u42 (187 + 2) = (((335250348 : ℕ) : ℚ) - 1) / 2147483646 :=
    u42_eval (by norm_num)
  have hu_208_1 : u42 (208 + 1) = (((835792675 : ℕ) : ℚ) - 1) / 2147483646 :=
    u42_eval (by norm_num)
  have hu_208_2 : u42 (208 + 2) = (((476953698 : ℕ) : ℚ) - 1) / 2147483646 :=
    u42_eval (by norm_num)
  have hu_235_1 : u42 (235 + 1) = (((112406271 : ℕ) : ℚ) - 1) / 2147483646 :=
    u42_eval (by norm_num)
  have hu_235_2 : u42 (235 + 2) = (((1574070984 : ℕ) : ℚ) - 1) / 2147483646 :=
    u42_eval (by norm_num)
  have hr_static_120 : qFloorN ((30 + u42 (120 + 2) * (48 / 5 / 1)) * 1 / (8 * 1)) = 3 := by
    rw [hu_120_2]
    exact qFloorN_eq (by norm_num) (by norm_num)
  have hc_static_120 : qFloorN ((18 + u42 (120 + 1) * 22) * 1 / (8 * 1)) = 3 := by
    rw [hu_120_1]
    exact qFloorN_eq (by norm_num) (by norm_num)
  have hr_static_141 : qFloorN ((30 + u42 (141 + 2) * (48 / 5 / 1)) * 1 / (8 * 1)) = 4 := by
    rw [hu_141_2]
    exact qFloorN_eq (by norm_num) (by norm_num)
  have hc_static_141 : qFloorN ((18 + u42 (141 + 1) * 22) * 1 / (8 * 1)) = 3 := by
    rw [hu_141_1]
    exact qFloorN_eq (by norm_num) (by norm_num)
  have hr_static_168 : qFloorN ((30 + u42 (168 + 2) * (48 / 5 / 1)) * 1 / (8 * 1)) = 4 := by
    rw [hu_168_2]
    exact qFloorN_eq (by norm_num) (by norm_num)
  have hc_static_168 : qFloorN ((18 + u42 (168 + 1) * 22) * 1 / (8 * 1)) = 2 := by
    rw [hu_168_1]
    exact qFloorN_eq (by norm_num) (by norm_num)
  have hr_static_187 : qFloorN ((30 + u42 (187 + 2) * (48 / 5 / 1)) * 1 / (8 * 1)) = 3 := by
    rw [hu_187_2]
    exact qFloorN_eq (by norm_num) (by norm_num)
  have hc_static_187 : qFloorN ((18 + u42 (187 + 1) * 22) * 1 / (8 * 1)) = 3 := by
    rw [hu_187_1]
    exact qFloorN_eq (by norm_num) (by norm_num)
  have hr_static_208 : qFloorN ((30 + u42 (208 + 2) * (48 / 5 / 1)) * 1 / (8 * 1)) = 4 := by
    rw [hu_208_2]
    exact qFloorN_eq (by norm_num) (by norm_num)
  have hc_static_208 : qFloorN ((18 + u42 (208 + 1) * 22) * 1 / (8 * 1)) = 3 := by
    rw [hu_208_1]
    exact qFloorN_eq (by norm_num) (by norm_num)
  have hr_static_235 : qFloorN ((30 + u42 (235 + 2) * (48 / 5 / 1)) * 1 / (8 * 1)) = 4 := by
    rw [hu_235_2]
    exact qFloorN_eq (by norm_num) (by norm_num)
  have hc_static_235 : qFloorN ((18 + u42 (235 + 1) * 22) * 1 / (8 * 1)) = 2 := by
    rw [hu_235_1]
    exact qFloorN_eq (by norm_num) (by norm_num)
  have t_static_6 : (staticBldgList 600 1 (48 / 5) 48 6 0 6 254).2 = 254 := rfl
  have t_static_5 : (staticBldgList 600 1 (48 / 5) 48 6 1 5 235).2 = 254 :=
    staticSnd_step hr_static_235 hc_static_235 (by norm_num) t_static_6
  have t_static_4 : (staticBldgList 600 1 (48 / 5) 48 6 2 4 208).2 = 254 :=
    staticSnd_step hr_static_208 hc_static_208 (by norm_num) t_static_5
  have t_static_3 : (staticBldgList 600 1 (48 / 5) 48 6 3 3 187).2 = 254 :=
    staticSnd_step hr_static_187 hc_static_187 (by norm_num) t_static_4
  have t_static_2 : (staticBldgList 600 1 (48 / 5) 48 6 4 2 168).2 = 254 :=
    staticSnd_step hr_static_168 hc_static_168 (by norm_num) t_static_3
  have t_static_1 : (staticBldgList 600 1 (48 / 5) 48 6 5 1 141).2 = 254 :=
    staticSnd_step hr_static_141 hc_static_141 (by norm_num) t_static_2
  have t_static_0 : (staticBldgList 600 1 (48 / 5) 48 6 6 0 120).2 = 254 :=
    staticSnd_step hr_static_120 hc_static_120 (by norm_num) t_static_1
  exact t_static_0
lemma replaySnd_eval :
    (replayBldgList 600 1 (48 / 5) 6 6 0 120).2 = 280 := by
  have hu_120_1 : u42 (120 + 1) = (((1143969277 : ℕ) : ℚ) - 1) / 2147483646 :=
    u42_eval (by norm_num)
  have hu_120_3 : u42 (120 + 3) = (((859674337 : ℕ) : ℚ) - 1) / 2147483646 :=
    u42_eval (by norm_num)
  have hu_148_1 : u42 (148 + 1) = (((1111561312 : ℕ) : ℚ) - 1) / 2147483646 :=
    u42_eval (by norm_num)
  have hu_148_3 : u42 (148 + 3) = (((785970236 : ℕ) : ℚ) - 1) / 2147483646 :=
    u42_eval (by norm_num)
  have hu_176_1 : u42 (176 + 1) = (((1448678443 : ℕ) : ℚ) - 1) / 2147483646 :=
    u42_eval (by norm_num)
  have hu_176_3 : u42 (176 + 3) = (((263938481 : ℕ) : ℚ) - 1) / 2147483646 :=
    u42_eval (by norm_num)
  have hu_204_1 : u42 (204 + 1) = (((324872466 : ℕ) : ℚ) - 1) / 2147483646 :=
    u42_eval (by norm_num)
  have hu_204_3 : u42 (204 + 3) = (((1301924799 : ℕ) : ℚ) - 1) / 2147483646 :=
    u42_eval (by norm_num)
  have hu_224_1 : u42 (224 + 1) = (((1150219498 : ℕ) : ℚ) - 1) / 2147483646 :=
    u42_eval (by norm_num)
  have hu_224_3 : u42 (224 + 3) = (((1387409786 : ℕ) : ℚ) - 1) / 2147483646 :=
    u42_eval (by norm_num)
  have hu_252_1 : u42 (252 + 1) = (((1176970464 : ℕ) : ℚ) - 1) / 2147483646 :=
    u42_eval (by norm_num)
  have hu_252_3 : u42 (252 + 3) = (((1169081659 : ℕ) : ℚ) - 1) / 2147483646 :=
    u42_eval (by norm_num)
  have hr_replay_120 : qFloorN ((30 + u42 (120 + 3) * (48 / 5 / 1)) * 1 / (8 * 1)) = 4 := by
    rw [hu_120_3]
    exact qFloorN_eq (by norm_num) (by norm_num)
  have hc_replay_120 : qFloorN ((18 + u42 (120 + 1) * 22) * 1 / (8 * 1)) = 3 := by
    rw [hu_120_1]
    exact qFloorN_eq (by norm_num) (by norm_num)
  have hr_replay_148 : qFloorN ((30 + u42 (148 + 3) * (48 / 5 / 1)) * 1 / (8 * 1)) = 4 := by
    rw [hu_148_3]
    exact qFloorN_eq (by norm_num) (by norm_num)
  have hc_replay_148 : qFloorN ((18 + u42 (148 + 1) * 22) * 1 / (8 * 1)) = 3 := by
    rw [hu_148_1]
    exact qFloorN_eq (by norm_num) (by norm_num)
  have hr_replay_176 : qFloorN ((30 + u42 (176 + 3) * (48 / 5 / 1)) * 1 / (8 * 1)) = 3 := by
    rw [hu_176_3]
    exact qFloorN_eq (by norm_num) (by norm_num)
  have hc_replay_176 : qFloorN ((18 + u42 (176 + 1) * 22) * 1 / (8 * 1)) = 4 := by
    rw [hu_176_1]
    exact qFloorN_eq (by norm_num) (by norm_num)
  have hr_replay_204 : qFloorN ((30 + u42 (204 + 3) * (48 / 5 / 1)) * 1 / (8 * 1)) = 4 := by
    rw [hu_204_3]
    exact qFloorN_eq (by norm_num) (by norm_num)
  have hc_replay_204 : qFloorN ((18 + u42 (204 + 1) * 22) * 1 / (8 * 1)) = 2 := by
    rw [hu_204_1]
    exact qFloorN_eq (by norm_num) (by norm_num)
  have hr_replay_224 : qFloorN ((30 + u42 (224 + 3) * (48 / 5 / 1)) * 1 / (8 * 1)) = 4 := by
    rw [hu_224_3]
    exact qFloorN_eq (by norm_num) (by norm_num)
  have hc_replay_224 : qFloorN ((18 + u42 (224 + 1) * 22) * 1 / (8 * 1)) = 3 := by
    rw [hu_224_1]
    exact qFloorN_eq (by norm_num) (by norm_num)
  have hr_replay_252 : qFloorN ((30 + u42 (252 + 3) * (48 / 5 / 1)) * 1 / (8 * 1)) = 4 := by
    rw [hu_252_3]
    exact qFloorN_eq (by norm_num) (by norm_num)
  have hc_replay_252 : qFloorN ((18 + u42 (252 + 1) * 22) * 1 / (8 * 1)) = 3 := by
    rw [hu_252_1]
    exact qFloorN_eq (by norm_num) (by norm_num)
  have t_replay_6 : (replayBldgList 600 1 (48 / 5) 6 0 6 280).2 = 280 := rfl
  have t_replay_5 : (replayBldgList 600 1 (48 / 5) 6 1 5 252).2 = 280 :=
    replaySnd_step hr_replay_252 hc_replay_252 (by norm_num) t_replay_6
  have t_replay_4 : (replayBldgList 600 1 (48 / 5) 6 2 4 224).2 = 280 :=
    replaySnd_step hr_replay_224 hc_replay_224 (by norm_num) t_replay_5
  have t_replay_3 : (replayBldgList 600 1 (48 / 5) 6 3 3 204).2 = 280 :=
    replaySnd_step hr_replay_204 hc_replay_204 (by norm_num) t_replay_4
  have t_replay_2 : (replayBldgList 600 1 (48 / 5) 6 4 2 176).2 = 280 :=
    replaySnd_step hr_replay_176 hc_replay_176 (by norm_num) t_replay_3
  have t_replay_1 : (replayBldgList 600 1 (48 / 5) 6 5 1 148).2 = 280 :=
    replaySnd_step hr_replay_148 hc_replay_148 (by norm_num) t_replay_2
  have t_replay_0 : (replayBldgList 600 1 (48 / 5) 6 6 0 120).2 = 280 :=
    replaySnd_step hr_replay_120 hc_replay_120 (by norm_num) t_replay_1
  exact t_replay_0

/-! ## Claim C1 -/

/-- C1 (code bug, evaluated at the failing input population 0, tech 75,
canvas 600 by 80, scale 1): the overlay's replay consumes one extra draw
per building (`rng(); // consume bw rng` fires after the width expression
already consumed a draw) — through stars and the building loop it consumes
280 draws where the static pass consumes 254, so the draw sequences do not
match in count — the re-derived building heights read shifted draws and
differ from the static pass's heights, and since the replay also drops the
per-building jitter from x, the blinking dots are not at the static
antenna tips. -/
theorem antennaReplayDesync_eval :
    (staticStarsBldgs 0 75 600 80 1).2 ≠ (replayStarsBldgs 0 75 600 80 1).2
    ∧ (staticStarsBldgs 0 75 600 80 1).1.map BldgS.bh
      ≠ (replayStarsBldgs 0 75 600 80 1).1.map BldgR.bh
    ∧ staticAntennaTips 0 75 600 80 1 ≠ replayAntennaDots 0 75 600 80 1 := by
  have hbc : buildingCountOf 0 = 6 := by
    unfold buildingCountOf
    exact qFloorN_eq (by norm_num) (by norm_num)
  have hsc : starCountOf 75 = 30 := by
    unfold starCountOf
    exact qFloorN_eq (by norm_num) (by norm_num)
  have hmh : maxHeightOf 0 80 = 48 / 5 := by
    unfold maxHeightOf
    norm_num
  have hgy : groundYOf 80 = 48 := by
    unfold groundYOf
    norm_num
  have hu120 : u42 120 = (((1764359979 : ℕ) : ℚ) - 1) / 2147483646 :=
    u42_eval (by norm_num)
  have hu121 : u42 (120 + 1) = (((1143969277 : ℕ) : ℚ) - 1) / 2147483646 :=
    u42_eval (by norm_num)
  have hu122 : u42 (120 + 2) = (((270546948 : ℕ) : ℚ) - 1) / 2147483646 :=
    u42_eval (by norm_num)
  have hu123 : u42 (120 + 3) = (((859674337 : ℕ) : ℚ) - 1) / 2147483646 :=
    u42_eval (by norm_num)
  have hSu : staticStarsBldgs 0 75 600 80 1
      = staticBldgList 600 1 (48 / 5) 48 6 (5 + 1) 0 120 := by
    unfold staticStarsBldgs
    rw [hbc, hsc, hmh, hgy]
  have hRu : replayStarsBldgs 0 75 600 80 1
      = replayBldgList 600 1 (48 / 5) 6 (5 + 1) 0 120 := by
    unfold replayStarsBldgs
    rw [hbc, hsc, hmh]
  refine ⟨?_, ?_, ?_⟩
  · have h1 : (staticStarsBldgs 0 75 600 80 1).2 = 254 := by
      rw [hSu]
      exact staticSnd_eval
    have h2 : (replayStarsBldgs 0 75 600 80 1).2 = 280 := by
      rw [hRu]
      exact replaySnd_eval
    rw [h1, h2]
    norm_num
  · rw [hSu, hRu, staticBldgList_succ, replayBldgList_succ]
    dsimp only
    simp only [List.map_cons, ne_eq, List.cons.injEq, not_and]
    intro hbh
    rw [hu122, hu123] at hbh
    norm_num at hbh
  · unfold staticAntennaTips replayAntennaDots
    rw [if_pos (by norm_num : (50 : ℤ) < 75), if_pos (by norm_num : (50 : ℤ) < 75)]
    rw [hmh, hgy, hSu, hRu, staticBldgList_succ, replayBldgList_succ]
    dsimp only
    rw [List.filter_cons_of_pos (by
        simp only [decide_eq_true_eq]
        rw [hu122]
        norm_num),
      List.filter_cons_of_pos (by
        simp only [decide_eq_true_eq]
        rw [hu123]
        norm_num)]
    simp only [List.map_cons, ne_eq, List.cons.injEq, not_and]
    intro hhead
    have hx := congrArg Prod.fst hhead
    dsimp only at hx
    rw [hu120, hu121] at hx
    norm_num at hx
